import Mathlib

/-
Shallow embedding of the Vulkan bring-up core of goopey7/vulkan-tutorial
(src/main.rs).  Driver queries are modelled as explicit query-result
environments; fallible driver calls are `Except` values whose error is the
driver result code (a `Nat`), lifted into the application error type
`VkError`.  Strings stand for the extension/layer names; the numeric enum
constants keep their Vulkan values.
-/

namespace VulkanTutorial

/-- The application-level error type: `suitability` is the `SuitabilityError`
newtype (payload is the string passed at the construction site), `anyhowMsg`
is an ad-hoc `anyhow!` message, `driver` wraps a native result code. -/
inductive VkError where
  | suitability (msg : String)
  | anyhowMsg (msg : String)
  | driver (code : Nat)
deriving DecidableEq, Repr

/- Constants from the top of main.rs. -/

def VALIDATION_LAYER : String := "VK_LAYER_KHRONOS_validation"

def KHR_SWAPCHAIN_EXTENSION : String := "VK_KHR_swapchain"

def DEVICE_EXTENSIONS : List String := [KHR_SWAPCHAIN_EXTENSION]

def EXT_DEBUG_UTILS_EXTENSION : String := "VK_EXT_debug_utils"

def KHR_GET_PHYSICAL_DEVICE_PROPERTIES2_EXTENSION : String :=
  "VK_KHR_get_physical_device_properties2"

def KHR_PORTABILITY_ENUMERATION_EXTENSION : String :=
  "VK_KHR_portability_enumeration"

def KHR_PORTABILITY_SUBSET_EXTENSION : String := "VK_KHR_portability_subset"

/-- A Vulkan `Version` triple, ordered lexicographically (as vulkanalia's
`Version` is). -/
structure Version where
  major : Nat
  minor : Nat
  patch : Nat
deriving DecidableEq, Repr

/-- Lexicographic `a <= b` on version triples. -/
def Version.le (a b : Version) : Bool :=
  if a.major ≠ b.major then a.major < b.major
  else if a.minor ≠ b.minor then a.minor < b.minor
  else a.patch ≤ b.patch

def PORTABILITY_MACOS_VERSION : Version := ⟨1, 3, 216⟩

/-- The guard `cfg!(target_os = "macos") && entry.version()? >= PORTABILITY_MACOS_VERSION`
used at both the instance-creation and device-creation call sites (with the
version query assumed to succeed, giving `version`). -/
def portability_condition (target_os_macos : Bool) (version : Version) : Bool :=
  target_os_macos && PORTABILITY_MACOS_VERSION.le version

/- Queue flags: a bitmask; only the GRAPHICS bit matters here. -/

def QueueFlags.GRAPHICS : Nat := 1

/-- `flags.contains(bit)` on Vulkan bitmasks: every bit of `bit` is set in `flags`. -/
def QueueFlags.contains (flags bit : Nat) : Bool := flags &&& bit == bit

/-- The resolved queue-family indices (`QueueFamilyIndices` in main.rs). -/
structure QueueFamilyIndices where
  graphics : Nat
  presentation : Nat
deriving DecidableEq, Repr

/-- The presentation scan of `QueueFamilyIndices::get`: walk indices
`idx, idx+1, ...` while `fuel` families remain; on a driver error from the
per-family surface-support query propagate it; on the first `true` stop with
that index; return `none` when all families are scanned. -/
def findPresentation (support : Nat → Except VkError Bool) :
    Nat → Nat → Except VkError (Option Nat)
  | _, 0 => Except.ok none
  | idx, fuel + 1 =>
    match support idx with
    | Except.error e => Except.error e
    | Except.ok true => Except.ok (some idx)
    | Except.ok false => findPresentation support (idx + 1) fuel

/-- `QueueFamilyIndices::get`: `properties` is the enumerated queue-family
property list (each entry its `queue_flags` bitmask), `support` the
per-family `get_physical_device_surface_support_khr` query against the
surface.  `graphics` is the `position` of the first family whose flags
contain the GRAPHICS bit; `presentation` comes from the scan above; if both
are found the pair is returned, otherwise the suitability error. -/
def QueueFamilyIndices.get (properties : List Nat)
    (support : Nat → Except VkError Bool) : Except VkError QueueFamilyIndices :=
  let graphics := properties.findIdx?
    (fun flags => QueueFlags.contains flags QueueFlags.GRAPHICS)
  match findPresentation support 0 properties.length with
  | Except.error e => Except.error e
  | Except.ok presentation =>
    match graphics, presentation with
    | some g, some p => Except.ok ⟨g, p⟩
    | _, _ => Except.error (VkError.suitability "Missing required queue families")

/- Surface formats and present modes, with the Vulkan enum values used in
main.rs. -/

def Format.B8G8R8A8_SRGB : Nat := 50

def ColorSpaceKHR.SRGB_NONLINEAR : Nat := 0

/-- `vk::SurfaceFormatKHR`: a pixel format plus a color space. -/
structure SurfaceFormatKHR where
  format : Nat
  color_space : Nat
deriving DecidableEq, Repr

def PresentModeKHR.MAILBOX : Nat := 1

def PresentModeKHR.FIFO : Nat := 2

/-- Everything the suitability pipeline queries from one physical device
(against the app's surface): its queue-family property list (each entry the
family's `queue_flags` bitmask), the per-family surface-support query, and
the results of the device-extension / surface-capability / surface-format /
present-mode enumerations.  Fallible driver calls carry their native result
code as the error. -/
structure PhysicalDeviceEnv where
  queue_family_properties : List Nat
  surface_support : Nat → Except VkError Bool
  device_extension_properties : Except Nat (List String)
  surface_capabilities : Except Nat Nat
  surface_formats : Except Nat (List SurfaceFormatKHR)
  surface_present_modes : Except Nat (List Nat)

/-- `SwapchainSupport` as in main.rs: capabilities (kept opaque), formats and
present modes. -/
structure SwapchainSupport where
  capabilities : Nat
  formats : List SurfaceFormatKHR
  present_modes : List Nat
deriving DecidableEq, Repr

/-- `SwapchainSupport::get`: the three surface queries in order, each
propagating its driver error. -/
def SwapchainSupport.get (dev : PhysicalDeviceEnv) : Except VkError SwapchainSupport :=
  match dev.surface_capabilities with
  | Except.error c => Except.error (VkError.driver c)
  | Except.ok capabilities =>
    match dev.surface_formats with
    | Except.error c => Except.error (VkError.driver c)
    | Except.ok formats =>
      match dev.surface_present_modes with
      | Except.error c => Except.error (VkError.driver c)
      | Except.ok present_modes => Except.ok ⟨capabilities, formats, present_modes⟩

/-- `check_physical_device_extensions`: enumerate the device's extension
properties (collected into a name set — membership in the returned list
models membership in the `HashSet`), succeed iff every name of
`DEVICE_EXTENSIONS` is in the set, else the suitability error. -/
def check_physical_device_extensions (dev : PhysicalDeviceEnv) : Except VkError Unit :=
  match dev.device_extension_properties with
  | Except.error c => Except.error (VkError.driver c)
  | Except.ok extensions =>
    if DEVICE_EXTENSIONS.all (fun extension => extensions.contains extension) then
      Except.ok ()
    else
      Except.error (VkError.suitability "Missing required device extensions")

/-- `check_physical_device` exactly as in main.rs: resolve queue families
(propagating failure), probe swapchain support (propagating failure), then
reject when the format list or the present-mode list is empty.  Note: the
source never calls `check_physical_device_extensions` here. -/
def check_physical_device (dev : PhysicalDeviceEnv) : Except VkError Unit :=
  match QueueFamilyIndices.get dev.queue_family_properties dev.surface_support with
  | Except.error e => Except.error e
  | Except.ok _ =>
    match SwapchainSupport.get dev with
    | Except.error e => Except.error e
    | Except.ok support =>
      if support.formats.isEmpty || support.present_modes.isEmpty then
        Except.error (VkError.suitability "Insufficient swapchain support")
      else
        Except.ok ()

/-- `get_swapchain_surface_format`: first format that is B8G8R8A8_SRGB with
SRGB_NONLINEAR color space, else `formats[0]` — which panics on an empty
slice, modelled by `none`. -/
def get_swapchain_surface_format (formats : List SurfaceFormatKHR) :
    Option SurfaceFormatKHR :=
  match formats.find? (fun f =>
      f.format == Format.B8G8R8A8_SRGB &&
        f.color_space == ColorSpaceKHR.SRGB_NONLINEAR) with
  | some f => some f
  | none => formats.get? 0

/-- `select_physical_device`: walk the enumerated devices in order, apply
`check_physical_device`; a failing device is logged (returned here as the
skip list of device/error pairs, in emission order) and skipped; the first
passing device is returned at once; an exhausted list yields the
`anyhow!("No suitable physical device found")` error. -/
def select_physical_device (check : PhysicalDeviceEnv → Except VkError Unit) :
    List PhysicalDeviceEnv →
      Except VkError PhysicalDeviceEnv × List (PhysicalDeviceEnv × VkError)
  | [] => (Except.error (VkError.anyhowMsg "No suitable physical device found"), [])
  | dev :: rest =>
    match check dev with
    | Except.error e =>
      let r := select_physical_device check rest
      (r.1, (dev, e) :: r.2)
    | Except.ok () => (Except.ok dev, [])

/-- A concrete device environment rejected by `check_physical_device`: its
queue families resolve but the surface-format query returns no formats. -/
def deviceNoFormats : PhysicalDeviceEnv :=
  ⟨[1], fun _ => Except.ok true, Except.ok [KHR_SWAPCHAIN_EXTENSION],
   Except.ok 0, Except.ok [], Except.ok [2]⟩

/-- A concrete device environment accepted by `check_physical_device`. -/
def deviceGood : PhysicalDeviceEnv :=
  ⟨[1], fun _ => Except.ok true, Except.ok [KHR_SWAPCHAIN_EXTENSION],
   Except.ok 0, Except.ok [⟨50, 0⟩], Except.ok [2]⟩

/-- A concrete device environment whose enumerated device-extension set is
empty — it lacks the required swapchain extension — but whose queue families
resolve and whose swapchain probe returns a format and a present mode. -/
def deviceMissingSwapchainExt : PhysicalDeviceEnv :=
  ⟨[1], fun _ => Except.ok true, Except.ok [],
   Except.ok 0, Except.ok [⟨50, 0⟩], Except.ok [2]⟩

/- Logical-device creation (create_logical_device). -/

/-- One `vk::DeviceQueueCreateInfo`: a family index and the priority list
(priorities as rationals; the source passes the single literal 1.0). -/
structure DeviceQueueCreateInfo where
  queue_family_index : Nat
  queue_priorities : List ℚ
deriving DecidableEq, Repr

/-- `HashSet::insert` modelled on a duplicate-free list: a no-op when the
element is already present.  Iteration order of the Rust `HashSet` is
unspecified; this model fixes insertion order, which is irrelevant to the
membership/count facts proved below. -/
def hashSetInsert (s : List Nat) (x : Nat) : List Nat :=
  if x ∈ s then s else s ++ [x]

/-- The `vk::DeviceCreateInfo` fields that `create_logical_device` computes:
the queue-creation requests, the layer list, and the device extension list. -/
structure DeviceCreateInfo where
  queue_infos : List DeviceQueueCreateInfo
  enabled_layers : List String
  enabled_extensions : List String
deriving DecidableEq, Repr

/-- The pure body of `create_logical_device` up to the driver call: dedup the
two indices through a `HashSet`, one queue info per unique index with
priorities `[1.0]`; layers mirror the validation decision; extensions are
`DEVICE_EXTENSIONS` plus, under the portability condition, the
portability-subset extension. -/
def create_logical_device_info (indices : QueueFamilyIndices)
    (validationEnabled portability : Bool) : DeviceCreateInfo :=
  let unique_indices :=
    hashSetInsert (hashSetInsert [] indices.graphics) indices.presentation
  let queue_infos := unique_indices.map (fun index =>
    DeviceQueueCreateInfo.mk index [1])
  let layers := if validationEnabled then [VALIDATION_LAYER] else []
  let extensions := DEVICE_EXTENSIONS
  let extensions :=
    if portability then extensions ++ [KHR_PORTABILITY_SUBSET_EXTENSION]
    else extensions
  ⟨queue_infos, layers, extensions⟩

/- Instance creation (create_instance). -/

/-- `vk::InstanceCreateFlags::ENUMERATE_PORTABILITY_KHR` (bit 0). -/
def InstanceCreateFlags.ENUMERATE_PORTABILITY_KHR : Nat := 1

/-- The instance extension list of `create_instance`: the windowing
collaborator's required extensions, plus the debug-utils extension when
validation is enabled, plus — under the portability condition — the
get-physical-device-properties2 and portability-enumeration extensions. -/
def create_instance_extensions (windowExtensions : List String)
    (validationEnabled portability : Bool) : List String :=
  let extensions := windowExtensions
  let extensions :=
    if validationEnabled then extensions ++ [EXT_DEBUG_UTILS_EXTENSION]
    else extensions
  if portability then
    extensions ++ [KHR_GET_PHYSICAL_DEVICE_PROPERTIES2_EXTENSION,
      KHR_PORTABILITY_ENUMERATION_EXTENSION]
  else
    extensions

/-- The instance-create flags of `create_instance`: the portability
enumeration flag under the portability condition, empty otherwise. -/
def create_instance_flags (portability : Bool) : Nat :=
  if portability then InstanceCreateFlags.ENUMERATE_PORTABILITY_KHR else 0

/-- Driver entry points `create_instance` touches, for the call trace. -/
inductive DriverCall where
  | enumerate_instance_layer_properties
  | version_query
  | create_instance_call
  | create_debug_utils_messenger
deriving DecidableEq, Repr

/-- The entry/driver environment `create_instance` runs against: the layer
enumeration result, the version query result, and the results the driver
would give to instance and messenger creation (errors are native result
codes). -/
structure EntryEnv where
  layer_properties : Except Nat (List String)
  version : Except Nat Version
  create_instance_result : Except Nat Nat
  create_messenger_result : Except Nat Nat

/-- What a successful `create_instance` hands back (plus the data written
into `AppData`): the instance handle, the lists and flags it was created
with, and the messenger handle when validation is enabled. -/
structure InstanceResult where
  instance_handle : Nat
  enabled_extensions : List String
  enabled_layers : List String
  flags : Nat
  messenger : Option Nat
deriving DecidableEq, Repr

/-- The tail of `create_instance` after the validation-layer gate: compute
the layer list, the portability condition (querying the driver version only
on macOS — the `&&` short-circuits), the extension list and flags, call
instance creation, and with validation enabled also create the debug
messenger; each driver call may fail with its result code. -/
def create_instance_after_layer_gate (target_os_macos validationEnabled : Bool)
    (windowExtensions : List String) (entry : EntryEnv) :
    Except VkError InstanceResult × List DriverCall :=
  let layers := if validationEnabled then [VALIDATION_LAYER] else []
  let portabilityStep : Except Nat (Bool × List DriverCall) :=
    if target_os_macos then
      match entry.version with
      | Except.error c => Except.error c
      | Except.ok v =>
        Except.ok (PORTABILITY_MACOS_VERSION.le v, [DriverCall.version_query])
    else
      Except.ok (false, [])
  match portabilityStep with
  | Except.error c =>
    (Except.error (VkError.driver c),
     [DriverCall.enumerate_instance_layer_properties, DriverCall.version_query])
  | Except.ok (portability, versionCalls) =>
    let extensions :=
      create_instance_extensions windowExtensions validationEnabled portability
    let flags := create_instance_flags portability
    let trace :=
      [DriverCall.enumerate_instance_layer_properties] ++ versionCalls ++
        [DriverCall.create_instance_call]
    match entry.create_instance_result with
    | Except.error c => (Except.error (VkError.driver c), trace)
    | Except.ok handle =>
      if validationEnabled then
        match entry.create_messenger_result with
        | Except.error c =>
          (Except.error (VkError.driver c),
           trace ++ [DriverCall.create_debug_utils_messenger])
        | Except.ok m =>
          (Except.ok ⟨handle, extensions, layers, flags, some m⟩,
           trace ++ [DriverCall.create_debug_utils_messenger])
      else
        (Except.ok ⟨handle, extensions, layers, flags, none⟩, trace)

/-- `create_instance` step by step, with the trace of driver calls it makes:
enumerate layers (propagating failure); when validation is enabled fail with
the `anyhow!` message if the validation layer is absent — before any further
driver call; then the tail above. -/
def create_instance (target_os_macos validationEnabled : Bool)
    (windowExtensions : List String) (entry : EntryEnv) :
    Except VkError InstanceResult × List DriverCall :=
  match entry.layer_properties with
  | Except.error c =>
    (Except.error (VkError.driver c), [DriverCall.enumerate_instance_layer_properties])
  | Except.ok available_layers =>
    if validationEnabled && !(available_layers.contains VALIDATION_LAYER) then
      (Except.error (VkError.anyhowMsg "Validation layer requested but not supported"),
       [DriverCall.enumerate_instance_layer_properties])
    else
      create_instance_after_layer_gate target_os_macos validationEnabled
        windowExtensions entry

/- Diagnostics bridge (debug_callback). -/

def DebugUtilsMessageSeverityFlagsEXT.VERBOSE : Nat := 1

def DebugUtilsMessageSeverityFlagsEXT.INFO : Nat := 16

def DebugUtilsMessageSeverityFlagsEXT.WARNING : Nat := 256

def DebugUtilsMessageSeverityFlagsEXT.ERROR : Nat := 4096

/-- `vk::FALSE`. -/
def vkFALSE : Nat := 0

/-- The leveled logging sink's levels. -/
inductive LogLevel where
  | error
  | warn
  | info
  | trace
deriving DecidableEq, Repr

/-- One line written to the logging sink: level, message type, message. -/
structure LogEntry where
  level : LogLevel
  message_type : Nat
  message : String
deriving DecidableEq, Repr

/-- `debug_callback`: classify by severity with the derived numeric order on
the severity bitmask (`>=` in the source), forward the message at the
matching level, return `vk::FALSE`. -/
def debug_callback (severity type_ : Nat) (message : String) : LogEntry × Nat :=
  let entry :=
    if DebugUtilsMessageSeverityFlagsEXT.ERROR ≤ severity then
      LogEntry.mk LogLevel.error type_ message
    else if DebugUtilsMessageSeverityFlagsEXT.WARNING ≤ severity then
      LogEntry.mk LogLevel.warn type_ message
    else if DebugUtilsMessageSeverityFlagsEXT.INFO ≤ severity then
      LogEntry.mk LogLevel.info type_ message
    else
      LogEntry.mk LogLevel.trace type_ message
  (entry, vkFALSE)

/- Teardown (App::destroy). -/

/-- The destruction calls `App::destroy` can make. -/
inductive DestroyCall where
  | destroy_device
  | destroy_surface_khr
  | destroy_debug_utils_messenger_ext
  | destroy_instance
deriving DecidableEq, Repr

/-- `App::destroy` as the sequence of driver destruction calls it performs,
parametrised by the compile-time `VALIDATION_ENABLED` flag: device, surface,
messenger (only under validation), instance. -/
def App.destroy (validationEnabled : Bool) : List DestroyCall :=
  [DestroyCall.destroy_device, DestroyCall.destroy_surface_khr] ++
    (if validationEnabled then [DestroyCall.destroy_debug_utils_messenger_ext]
     else []) ++
    [DestroyCall.destroy_instance]

/-- The final match of `QueueFamilyIndices::get` as a standalone function:
both searches must have produced an index, else the suitability error. -/
def resolveOutcome (graphics presentation : Option Nat) :
    Except VkError QueueFamilyIndices :=
  match graphics, presentation with
  | some g, some p => Except.ok ⟨g, p⟩
  | _, _ => Except.error (VkError.suitability "Missing required queue families")

/- Helper lemmas about the presentation scan with an error-free
surface-support oracle. -/

theorem findPresentation_pure_isOk (f : Nat → Bool) (fuel start : Nat) :
    ∃ r, findPresentation (fun i => Except.ok (f i)) start fuel = Except.ok r := by
  induction fuel generalizing start with
  | zero => exact ⟨none, rfl⟩
  | succ n ih =>
    by_cases h : f start = true
    · exact ⟨some start, by simp [findPresentation, h]⟩
    · obtain ⟨r, hr⟩ := ih (start + 1)
      exact ⟨r, by simp only [findPresentation, Bool.not_eq_true] at *; simp [h, hr]⟩

theorem findPresentation_pure_none (f : Nat → Bool) (fuel start : Nat) :
    findPresentation (fun i => Except.ok (f i)) start fuel = Except.ok none ↔
      ∀ j, start ≤ j → j < start + fuel → f j = false := by
  induction fuel generalizing start with
  | zero =>
    simp only [findPresentation]
    constructor
    · intro _ j h1 h2; exact absurd h2 (by omega)
    · intro _; trivial
  | succ n ih =>
    by_cases h : f start = true
    · simp only [findPresentation, h]
      constructor
      · intro hcon; exact absurd hcon (by simp)
      · intro hall
        have := hall start le_rfl (by omega)
        rw [h] at this; exact absurd this (by simp)
    · have hfalse : f start = false := by
        cases hf : f start
        · rfl
        · exact absurd hf h
      simp only [findPresentation, hfalse]
      rw [ih (start + 1)]
      constructor
      · intro hall j h1 h2
        rcases Nat.eq_or_lt_of_le h1 with heq | hlt
        · rw [← heq]; exact hfalse
        · exact hall j hlt (by omega)
      · intro hall j h1 h2
        exact hall j (by omega) (by omega)

theorem findPresentation_pure_some (f : Nat → Bool) (fuel start p : Nat)
    (h : findPresentation (fun i => Except.ok (f i)) start fuel =
      Except.ok (some p)) :
    start ≤ p ∧ p < start + fuel ∧ f p = true ∧
      ∀ j, start ≤ j → j < p → f j = false := by
  induction fuel generalizing start with
  | zero => exact absurd h (by simp [findPresentation])
  | succ n ih =>
    by_cases hf : f start = true
    · simp only [findPresentation, hf] at h
      have hp : start = p := by
        have := h
        simp only [Except.ok.injEq, Option.some.injEq] at this
        exact this
      subst hp
      exact ⟨le_rfl, by omega, hf, fun j h1 h2 => by omega⟩
    · have hfalse : f start = false := by
        cases hfs : f start
        · rfl
        · exact absurd hfs hf
      simp only [findPresentation, hfalse] at h
      obtain ⟨h1, h2, h3, h4⟩ := ih (start + 1) h
      refine ⟨by omega, by omega, h3, ?_⟩
      intro j hj1 hj2
      rcases Nat.eq_or_lt_of_le hj1 with heq | hlt
      · rw [← heq]; exact hfalse
      · exact h4 j hlt hj2

/-- C3: against an error-free per-family surface-support oracle `f`, the
queue-family resolver returns `graphics` = the first index (in index order)
whose capability flags contain the graphics bit and `presentation` = the
first index the oracle accepts (an independent scan that may differ), and it
fails with the "Missing required queue families" suitability error exactly
when at least one of the two searches finds no index after scanning all
families. -/
theorem queue_family_resolver_spec (properties : List Nat) (f : Nat → Bool) :
    (∀ g p,
        QueueFamilyIndices.get properties (fun i => Except.ok (f i)) =
          Except.ok ⟨g, p⟩ →
        (g < properties.length ∧
          QueueFlags.contains (properties.getD g 0) QueueFlags.GRAPHICS = true ∧
          ∀ j, j < g →
            QueueFlags.contains (properties.getD j 0) QueueFlags.GRAPHICS = false) ∧
        (p < properties.length ∧ f p = true ∧ ∀ j, j < p → f j = false)) ∧
    (QueueFamilyIndices.get properties (fun i => Except.ok (f i)) =
        Except.error (VkError.suitability "Missing required queue families") ↔
      (∀ x ∈ properties, QueueFlags.contains x QueueFlags.GRAPHICS = false) ∨
        (∀ j, j < properties.length → f j = false)) := by
  obtain ⟨r, hr⟩ := findPresentation_pure_isOk f properties.length 0
  have hget : QueueFamilyIndices.get properties (fun i => Except.ok (f i)) =
      resolveOutcome
        (properties.findIdx?
          (fun flags => QueueFlags.contains flags QueueFlags.GRAPHICS)) r := by
    unfold QueueFamilyIndices.get
    rw [hr]
    rfl
  cases hg : properties.findIdx?
      (fun flags => QueueFlags.contains flags QueueFlags.GRAPHICS) with
  | some g =>
    obtain ⟨hglen, hgfind⟩ := List.findIdx?_eq_some_iff_findIdx_eq.mp hg
    have hgbit : QueueFlags.contains (properties.getD g 0) QueueFlags.GRAPHICS = true := by
      rw [← hgfind]
      have hw : properties.findIdx
          (fun flags => QueueFlags.contains flags QueueFlags.GRAPHICS) <
          properties.length := by rw [hgfind]; exact hglen
      rw [List.getD_eq_getElem properties 0 hw]
      exact @List.findIdx_getElem _
        (fun flags => QueueFlags.contains flags QueueFlags.GRAPHICS) properties hw
    have hgfirst : ∀ j, j < g →
        QueueFlags.contains (properties.getD j 0) QueueFlags.GRAPHICS = false := by
      intro j hj
      have hjlen : j < properties.length := by omega
      rw [List.getD_eq_getElem properties 0 hjlen]
      exact @List.not_of_lt_findIdx _
        (fun flags => QueueFlags.contains flags QueueFlags.GRAPHICS) properties j
        (by rw [hgfind]; exact hj)
    cases r with
    | some p =>
      rw [hg] at hget
      simp only [resolveOutcome] at hget
      obtain ⟨-, hplen, hpf, hpfirst⟩ :=
        findPresentation_pure_some f properties.length 0 p hr
      constructor
      · intro g' p' heq
        rw [hget] at heq
        simp only [Except.ok.injEq, QueueFamilyIndices.mk.injEq] at heq
        obtain ⟨hg', hp'⟩ := heq
        subst hg'
        subst hp'
        exact ⟨⟨hglen, hgbit, hgfirst⟩,
          ⟨by omega, hpf, fun j hj => hpfirst j (by omega) hj⟩⟩
      · rw [hget]
        constructor
        · intro heq; exact absurd heq (by simp)
        · intro hcon
          rcases hcon with hnog | hnop
          · have := hnog (properties.getD g 0)
              (by rw [List.getD_eq_getElem properties 0 hglen]
                  exact List.getElem_mem hglen)
            rw [hgbit] at this
            exact absurd this (by simp)
          · have := hnop p (by omega)
            rw [hpf] at this
            exact absurd this (by simp)
    | none =>
      rw [hg] at hget
      simp only [resolveOutcome] at hget
      have hnop : ∀ j, j < properties.length → f j = false := by
        intro j hj
        exact (findPresentation_pure_none f properties.length 0).mp hr j
          (by omega) (by omega)
      constructor
      · intro g' p' heq
        rw [hget] at heq
        exact absurd heq (by simp)
      · rw [hget]
        exact ⟨fun _ => Or.inr hnop, fun _ => rfl⟩
  | none =>
    have hnog : ∀ x ∈ properties,
        QueueFlags.contains x QueueFlags.GRAPHICS = false :=
      List.findIdx?_eq_none_iff.mp hg
    rw [hg] at hget
    cases r with
    | some p =>
      simp only [resolveOutcome] at hget
      rw [hget]
      exact ⟨fun g' p' heq => absurd heq (by simp),
        ⟨fun _ => Or.inl hnog, fun _ => rfl⟩⟩
    | none =>
      simp only [resolveOutcome] at hget
      rw [hget]
      exact ⟨fun g' p' heq => absurd heq (by simp),
        ⟨fun _ => Or.inl hnog, fun _ => rfl⟩⟩

/-- Witness for C3 at the concrete family list `[0, 1]` (family 1 has the
graphics bit) and the oracle accepting family 0. -/
theorem queue_family_resolver_spec_witness :
    (1 < ([0, 1] : List Nat).length ∧
      QueueFlags.contains (([0, 1] : List Nat).getD 1 0) QueueFlags.GRAPHICS = true ∧
      ∀ j, j < 1 →
        QueueFlags.contains (([0, 1] : List Nat).getD j 0) QueueFlags.GRAPHICS = false) ∧
    (0 < ([0, 1] : List Nat).length ∧ decide (0 = 0) = true ∧
      ∀ j, j < 0 → decide (j = 0) = false) :=
  (queue_family_resolver_spec [0, 1] (fun i => decide (i = 0))).1 1 0 rfl

/-- C9: teardown destroys, in order, the logical device, the surface, the
debug messenger (only when validation was enabled), and the instance; with
validation disabled no messenger-destruction call is made. -/
theorem destroy_order :
    App.destroy true =
      [DestroyCall.destroy_device, DestroyCall.destroy_surface_khr,
       DestroyCall.destroy_debug_utils_messenger_ext,
       DestroyCall.destroy_instance] ∧
    App.destroy false =
      [DestroyCall.destroy_device, DestroyCall.destroy_surface_khr,
       DestroyCall.destroy_instance] ∧
    DestroyCall.destroy_debug_utils_messenger_ext ∉ App.destroy false := by
  refine ⟨rfl, rfl, ?_⟩
  decide

/-- C8: for every severity, category and message, the debug callback forwards
the message at the level matching its severity (error severity to error,
warning to warn, info to info, anything else to trace) and returns
`vk::FALSE`, the value signalling "do not abort the triggering call". -/
theorem debug_callback_spec :
    (∀ severity type_ message,
        (debug_callback severity type_ message).2 = vkFALSE ∧
        (debug_callback severity type_ message).1.message = message ∧
        (debug_callback severity type_ message).1.message_type = type_) ∧
    (∀ type_ message,
        (debug_callback DebugUtilsMessageSeverityFlagsEXT.ERROR type_
            message).1.level = LogLevel.error ∧
        (debug_callback DebugUtilsMessageSeverityFlagsEXT.WARNING type_
            message).1.level = LogLevel.warn ∧
        (debug_callback DebugUtilsMessageSeverityFlagsEXT.INFO type_
            message).1.level = LogLevel.info ∧
        (debug_callback DebugUtilsMessageSeverityFlagsEXT.VERBOSE type_
            message).1.level = LogLevel.trace) ∧
    (∀ severity type_ message,
        (DebugUtilsMessageSeverityFlagsEXT.ERROR ≤ severity →
          (debug_callback severity type_ message).1.level = LogLevel.error) ∧
        (severity < DebugUtilsMessageSeverityFlagsEXT.ERROR →
          DebugUtilsMessageSeverityFlagsEXT.WARNING ≤ severity →
          (debug_callback severity type_ message).1.level = LogLevel.warn) ∧
        (severity < DebugUtilsMessageSeverityFlagsEXT.WARNING →
          DebugUtilsMessageSeverityFlagsEXT.INFO ≤ severity →
          (debug_callback severity type_ message).1.level = LogLevel.info) ∧
        (severity < DebugUtilsMessageSeverityFlagsEXT.INFO →
          (debug_callback severity type_ message).1.level = LogLevel.trace)) := by
  refine ⟨?_, ?_, ?_⟩
  · intro severity type_ message
    refine ⟨rfl, ?_, ?_⟩ <;>
      · simp only [debug_callback]
        split
        · rfl
        · split
          · rfl
          · split
            · rfl
            · rfl
  · intro type_ message
    exact ⟨rfl, rfl, rfl, rfl⟩
  · intro severity type_ message
    refine ⟨?_, ?_, ?_, ?_⟩
    · intro h1
      simp [debug_callback, h1]
    · intro h1 h2
      simp [debug_callback, h1, h2, Nat.not_le_of_lt h1]
    · intro h1 h2
      have h3 : ¬(DebugUtilsMessageSeverityFlagsEXT.ERROR ≤ severity) :=
        Nat.not_le_of_lt (Nat.lt_trans h1
          (show DebugUtilsMessageSeverityFlagsEXT.WARNING <
            DebugUtilsMessageSeverityFlagsEXT.ERROR by decide))
      simp [debug_callback, h2, Nat.not_le_of_lt h1, h3]
    · intro h1
      have h2 : ¬(DebugUtilsMessageSeverityFlagsEXT.WARNING ≤ severity) :=
        Nat.not_le_of_lt (Nat.lt_trans h1
          (show DebugUtilsMessageSeverityFlagsEXT.INFO <
            DebugUtilsMessageSeverityFlagsEXT.WARNING by decide))
      have h3 : ¬(DebugUtilsMessageSeverityFlagsEXT.ERROR ≤ severity) :=
        Nat.not_le_of_lt (Nat.lt_trans h1
          (show DebugUtilsMessageSeverityFlagsEXT.INFO <
            DebugUtilsMessageSeverityFlagsEXT.ERROR by decide))
      simp [debug_callback, Nat.not_le_of_lt h1, h2, h3]

/-- Witness for C8 at severity 0 (below the info threshold): the message is
forwarded at trace level. -/
theorem debug_callback_spec_witness :
    (debug_callback 0 0 "message").1.level = LogLevel.trace :=
  (debug_callback_spec.2.2 0 0 "message").2.2.2 (by decide)

/-- C10: the swapchain surface-format chooser is total exactly on non-empty
format lists: on a non-empty list it yields the first B8G8R8A8_SRGB /
SRGB_NONLINEAR entry if one exists and the first list element otherwise; on
the empty list the `formats[0]` fallback is out of bounds (a panic, modelled
as `none`). -/
theorem get_swapchain_surface_format_spec :
    get_swapchain_surface_format [] = none ∧
    ∀ hd tl, ∃ f, get_swapchain_surface_format (hd :: tl) = some f ∧
      (((hd :: tl).find? (fun g =>
          g.format == Format.B8G8R8A8_SRGB &&
            g.color_space == ColorSpaceKHR.SRGB_NONLINEAR) = some f) ∨
       ((∀ g ∈ hd :: tl, ¬(g.format = Format.B8G8R8A8_SRGB ∧
            g.color_space = ColorSpaceKHR.SRGB_NONLINEAR)) ∧ f = hd)) := by
  refine ⟨rfl, ?_⟩
  intro hd tl
  cases hfind : (hd :: tl).find? (fun g =>
      g.format == Format.B8G8R8A8_SRGB &&
        g.color_space == ColorSpaceKHR.SRGB_NONLINEAR) with
  | some f =>
    refine ⟨f, ?_, Or.inl rfl⟩
    simp only [get_swapchain_surface_format, hfind]
  | none =>
    refine ⟨hd, ?_, Or.inr ⟨?_, rfl⟩⟩
    · simp only [get_swapchain_surface_format, hfind]
      rfl
    · intro g hg hcon
      have := List.find?_eq_none.mp hfind g hg
      simp only [Bool.and_eq_true, beq_iff_eq] at this
      exact this ⟨hcon.1, hcon.2⟩

/-- C4: the logical-device factory deduplicates the graphics/presentation
indices and issues one queue-creation request per unique index, each with
priority list `[1.0]`; in particular a single request when the two indices
coincide. -/
theorem create_logical_device_queue_infos (indices : QueueFamilyIndices)
    (validationEnabled portability : Bool) :
    (create_logical_device_info indices validationEnabled
        portability).queue_infos =
      if indices.graphics = indices.presentation then
        [⟨indices.graphics, [1]⟩]
      else
        [⟨indices.graphics, [1]⟩, ⟨indices.presentation, [1]⟩] := by
  by_cases h : indices.presentation = indices.graphics
  · simp [create_logical_device_info, hashSetInsert, h]
  · have h2 : ¬(indices.graphics = indices.presentation) := fun hc => h hc.symm
    simp [create_logical_device_info, hashSetInsert, h, h2]

/-- C2 as stated is false on the code: under the portability condition the
extension list passed to instance creation contains two additional
platform-specific extensions, not exactly one. -/
theorem portability_one_extension_counterexample :
    ¬ ((create_instance_extensions ["VK_KHR_surface"] false
          (portability_condition true ⟨1, 3, 216⟩)).length =
       (create_instance_extensions ["VK_KHR_surface"] false false).length + 1) := by
  decide

/-- C2 amended: when the portability condition (macOS and driver version at
or above 1.3.216) holds, the instance-creation extension list contains
exactly two additional platform-specific extensions
(get-physical-device-properties2 and portability-enumeration), the
device-creation extension list exactly one (portability-subset), and the
instance-create flags include the portability-enumeration flag. -/
theorem portability_extension_deltas (windowExtensions : List String)
    (validationEnabled : Bool) (indices : QueueFamilyIndices)
    (target_os_macos : Bool) (version : Version)
    (h : portability_condition target_os_macos version = true) :
    create_instance_extensions windowExtensions validationEnabled
        (portability_condition target_os_macos version) =
      create_instance_extensions windowExtensions validationEnabled false ++
        [KHR_GET_PHYSICAL_DEVICE_PROPERTIES2_EXTENSION,
         KHR_PORTABILITY_ENUMERATION_EXTENSION] ∧
    (create_instance_extensions windowExtensions validationEnabled
        (portability_condition target_os_macos version)).length =
      (create_instance_extensions windowExtensions validationEnabled
          false).length + 2 ∧
    (create_logical_device_info indices validationEnabled
        (portability_condition target_os_macos version)).enabled_extensions =
      (create_logical_device_info indices validationEnabled
          false).enabled_extensions ++ [KHR_PORTABILITY_SUBSET_EXTENSION] ∧
    (create_logical_device_info indices validationEnabled
        (portability_condition target_os_macos version)).enabled_extensions.length =
      (create_logical_device_info indices validationEnabled
          false).enabled_extensions.length + 1 ∧
    create_instance_flags (portability_condition target_os_macos version) &&&
        InstanceCreateFlags.ENUMERATE_PORTABILITY_KHR =
      InstanceCreateFlags.ENUMERATE_PORTABILITY_KHR := by
  rw [h]
  refine ⟨?_, ?_, ?_, ?_, rfl⟩ <;>
    simp [create_instance_extensions, create_logical_device_info]

/-- Witness for C2's amended theorem under the concrete condition
(macOS, driver version exactly 1.3.216). -/
theorem portability_extension_deltas_witness :
    portability_condition true ⟨1, 3, 216⟩ = true ∧
    create_instance_extensions ["VK_KHR_surface"] false
        (portability_condition true ⟨1, 3, 216⟩) =
      create_instance_extensions ["VK_KHR_surface"] false false ++
        [KHR_GET_PHYSICAL_DEVICE_PROPERTIES2_EXTENSION,
         KHR_PORTABILITY_ENUMERATION_EXTENSION] :=
  ⟨by decide,
   (portability_extension_deltas ["VK_KHR_surface"] false ⟨0, 0⟩ true
      ⟨1, 3, 216⟩ (by decide)).1⟩

/-- C6: the device-extension check succeeds whenever the enumerated
device-extension set contains every required extension (any superset, strict
ones included), and fails with the "Missing required device extensions"
suitability reason — and no other — whenever at least one required extension
is absent. -/
theorem extension_check_spec (dev : PhysicalDeviceEnv)
    (enumerated : List String)
    (henum : dev.device_extension_properties = Except.ok enumerated) :
    (DEVICE_EXTENSIONS ⊆ enumerated →
       check_physical_device_extensions dev = Except.ok ()) ∧
    ((∃ e ∈ DEVICE_EXTENSIONS, e ∉ enumerated) →
       check_physical_device_extensions dev =
         Except.error
           (VkError.suitability "Missing required device extensions")) := by
  have key : check_physical_device_extensions dev =
      (if DEVICE_EXTENSIONS.all (fun extension => enumerated.contains extension)
       then Except.ok ()
       else Except.error
         (VkError.suitability "Missing required device extensions")) := by
    unfold check_physical_device_extensions
    rw [henum]
  rw [key]
  constructor
  · intro hsub
    have hall : DEVICE_EXTENSIONS.all
        (fun extension => enumerated.contains extension) = true := by
      rw [List.all_eq_true]
      intro e he
      exact List.elem_eq_true_of_mem (hsub he)
    rw [hall]
    rfl
  · intro hmissing
    obtain ⟨e, he, hnot⟩ := hmissing
    have hall : DEVICE_EXTENSIONS.all
        (fun extension => enumerated.contains extension) = false := by
      cases hb : DEVICE_EXTENSIONS.all
          (fun extension => enumerated.contains extension) with
      | false => rfl
      | true =>
        have := List.all_eq_true.mp hb e he
        exact absurd (List.elem_iff.mp this) hnot
    rw [hall]
    rfl

/-- Witness for C6: a strict superset of the required set passes, while a
set missing the swapchain extension fails with the missing-extensions
reason. -/
theorem extension_check_spec_witness :
    check_physical_device_extensions
        ⟨[], fun _ => Except.ok false,
         Except.ok ["VK_KHR_swapchain", "VK_EXT_other"],
         Except.ok 0, Except.ok [], Except.ok []⟩ = Except.ok () ∧
    check_physical_device_extensions
        ⟨[], fun _ => Except.ok false, Except.ok ["VK_EXT_other"],
         Except.ok 0, Except.ok [], Except.ok []⟩ =
      Except.error (VkError.suitability "Missing required device extensions") :=
  ⟨(extension_check_spec _ ["VK_KHR_swapchain", "VK_EXT_other"] rfl).1
      (by intro x hx; simp only [DEVICE_EXTENSIONS, KHR_SWAPCHAIN_EXTENSION,
            List.mem_singleton] at hx; rw [hx]; simp),
   (extension_check_spec _ ["VK_EXT_other"] rfl).2
      ⟨"VK_KHR_swapchain", by simp [DEVICE_EXTENSIONS, KHR_SWAPCHAIN_EXTENSION],
        by simp⟩⟩

/-- C5: the selector returns the first passing device in enumeration order
without evaluating any later candidate (the result is the same for every
continuation `post` and for any behaviour of the evaluator on it), records
one skip-log entry per rejected device before it, and yields the
"No suitable physical device found" exhaustion error exactly when every
candidate is rejected — in particular on the empty enumeration, where no
per-device query is made at all. -/
theorem select_physical_device_spec
    (check : PhysicalDeviceEnv → Except VkError Unit)
    (err : PhysicalDeviceEnv → VkError) :
    (select_physical_device check [] =
      (Except.error (VkError.anyhowMsg "No suitable physical device found"),
       [])) ∧
    (∀ pre d post, (∀ x ∈ pre, check x = Except.error (err x)) →
       check d = Except.ok () →
       select_physical_device check (pre ++ d :: post) =
         (Except.ok d, pre.map (fun x => (x, err x)))) ∧
    (∀ devs, (∀ x ∈ devs, check x = Except.error (err x)) →
       select_physical_device check devs =
         (Except.error (VkError.anyhowMsg "No suitable physical device found"),
          devs.map (fun x => (x, err x)))) ∧
    (∀ devs, (select_physical_device check devs).1 =
        Except.error (VkError.anyhowMsg "No suitable physical device found") →
      ∀ x ∈ devs, check x ≠ Except.ok ()) := by
  refine ⟨rfl, ?_, ?_, ?_⟩
  · intro pre d post hpre hd
    induction pre with
    | nil => simp [select_physical_device, hd]
    | cons a rest ih =>
      have ha : check a = Except.error (err a) := hpre a (by simp)
      have hrest : ∀ x ∈ rest, check x = Except.error (err x) := by
        intro x hx; exact hpre x (by simp [hx])
      simp [select_physical_device, ha, ih hrest]
  · intro devs hall
    induction devs with
    | nil => rfl
    | cons a rest ih =>
      have ha : check a = Except.error (err a) := hall a (by simp)
      have hrest : ∀ x ∈ rest, check x = Except.error (err x) := by
        intro x hx; exact hall x (by simp [hx])
      simp [select_physical_device, ha, ih hrest]
  · intro devs
    induction devs with
    | nil => intro _ x hx; exact absurd hx (List.not_mem_nil x)
    | cons a rest ih =>
      intro h x hx
      cases hc : check a with
      | ok u =>
        cases u
        rw [show select_physical_device check (a :: rest) =
            (Except.ok a, []) by simp [select_physical_device, hc]] at h
        exact absurd h (by simp)
      | error e =>
        have hsel : (select_physical_device check (a :: rest)).1 =
            (select_physical_device check rest).1 := by
          simp [select_physical_device, hc]
        rw [hsel] at h
        rcases List.mem_cons.mp hx with hxa | hxr
        · rw [hxa, hc]
          intro hcon
          exact absurd hcon (by simp)
        · exact ih h x hxr

/-- Witness for C5: with `check_physical_device` as the evaluator, a failing
device followed by a passing one followed by another candidate selects the
second device and logs exactly the first. -/
theorem select_physical_device_spec_witness :
    check_physical_device deviceNoFormats =
      Except.error (VkError.suitability "Insufficient swapchain support") ∧
    select_physical_device check_physical_device
        [deviceNoFormats, deviceGood, deviceNoFormats] =
      (Except.ok deviceGood,
       [(deviceNoFormats,
         VkError.suitability "Insufficient swapchain support")]) :=
  ⟨rfl,
   (select_physical_device_spec check_physical_device
      (fun _ => VkError.suitability "Insufficient swapchain support")).2.1
     [deviceNoFormats] deviceGood [deviceNoFormats]
     (fun x hx => by rw [List.mem_singleton] at hx; rw [hx]; rfl) rfl⟩

/-- The tail of instance creation after the validation-layer gate never
produces an `anyhow!` message error: every failure there wraps a driver
result code. -/
theorem create_instance_after_layer_gate_no_anyhow
    (target_os_macos validationEnabled : Bool)
    (windowExtensions : List String) (entry : EntryEnv) (msg : String) :
    (create_instance_after_layer_gate target_os_macos validationEnabled
        windowExtensions entry).1 ≠ Except.error (VkError.anyhowMsg msg) := by
  unfold create_instance_after_layer_gate
  cases htos : target_os_macos <;>
    cases hver : entry.version <;>
      cases hcir : entry.create_instance_result <;>
        cases hv : validationEnabled <;>
          cases hcmr : entry.create_messenger_result <;>
            simp

/-- C7: with validation enabled and the required validation layer absent from
the driver's enumerated layers, instance creation fails with the
missing-layer error and its driver-call trace stops at the layer
enumeration — no instance-creation call is attempted; when the layer is
present, or validation is disabled, that error is never raised. -/
theorem validation_layer_gate (target_os_macos validationEnabled : Bool)
    (windowExtensions : List String) (entry : EntryEnv) :
    (∀ props, validationEnabled = true →
       entry.layer_properties = Except.ok props →
       VALIDATION_LAYER ∉ props →
       create_instance target_os_macos validationEnabled windowExtensions
           entry =
         (Except.error
            (VkError.anyhowMsg "Validation layer requested but not supported"),
          [DriverCall.enumerate_instance_layer_properties])) ∧
    ((validationEnabled = false ∨
        ∃ props, entry.layer_properties = Except.ok props ∧
          VALIDATION_LAYER ∈ props) →
       (create_instance target_os_macos validationEnabled windowExtensions
           entry).1 ≠
         Except.error
           (VkError.anyhowMsg "Validation layer requested but not supported")) := by
  constructor
  · intro props hv hprops hnot
    have hcontains : props.contains VALIDATION_LAYER = false := by
      cases hb : props.contains VALIDATION_LAYER with
      | false => rfl
      | true => exact absurd (List.elem_iff.mp hb) hnot
    subst hv
    unfold create_instance
    rw [hprops]
    simp [hcontains, hnot]
  · intro hcond
    unfold create_instance
    cases hprops : entry.layer_properties with
    | error c => simp
    | ok props =>
      have hgate : (validationEnabled && !(props.contains VALIDATION_LAYER)) =
          false := by
        rcases hcond with hvfalse | ⟨props', hp', hmem⟩
        · rw [hvfalse]; rfl
        · rw [hprops] at hp'
          have heqp : props' = props := by
            injection hp' with h
            exact h.symm
          subst heqp
          have hcont : props'.contains VALIDATION_LAYER = true :=
            List.elem_eq_true_of_mem hmem
          rw [hcont]
          simp
      simp only [hgate, Bool.false_eq_true, if_false]
      exact create_instance_after_layer_gate_no_anyhow target_os_macos
        validationEnabled windowExtensions entry _

/-- Witness for C7: with validation enabled and an empty available-layer
list, creation fails with the missing-layer error without an
instance-creation call. -/
theorem validation_layer_gate_witness :
    create_instance false true []
        ⟨Except.ok [], Except.ok ⟨1, 0, 0⟩, Except.ok 7, Except.ok 8⟩ =
      (Except.error
         (VkError.anyhowMsg "Validation layer requested but not supported"),
       [DriverCall.enumerate_instance_layer_properties]) :=
  (validation_layer_gate false true []
      ⟨Except.ok [], Except.ok ⟨1, 0, 0⟩, Except.ok 7, Except.ok 8⟩).1
    [] rfl rfl (List.not_mem_nil VALIDATION_LAYER)

/-- C1 names a code bug: the suitability evaluator `check_physical_device`
never performs step (b) — it does not call `check_physical_device_extensions`
(dead code in the source) — so a device whose enumerated device-extension set
lacks the required swapchain extension, but whose queue families resolve and
whose swapchain probe is non-empty, is accepted, while the dedicated check
on the same device fails with the "Missing required device extensions"
reason. -/
theorem check_physical_device_skips_extension_check :
    check_physical_device deviceMissingSwapchainExt = Except.ok () ∧
    check_physical_device_extensions deviceMissingSwapchainExt =
      Except.error (VkError.suitability "Missing required device extensions") :=
  ⟨rfl, rfl⟩

end VulkanTutorial
